import Mathlib

/-!
Shallow embedding of the order/payment core of the modular-monolith
e-commerce service (Go).  Amounts (`float64` in Go) are modelled as `Rat`;
timestamps (`time.Now()`) are passed in explicitly as `Nat` ticks; generated
UUIDs are passed in as explicit identifier arguments; the repository and
gateway collaborators are modelled as explicit environments describing the
result each call would produce, while the use-case results record which
calls were performed.  A Go `map[string]string` that may be `nil` is
modelled as `Option (List (String × String))`; an assignment into a `nil`
map is a Go runtime panic, modelled by an explicit panic outcome.
-/

namespace ECom

/-! ## Order domain (internal/order/domain) -/

/-- `OrderStatus` from the order domain package. -/
inductive OrderStatus
  | pending
  | paid
  | shipped
  | delivered
  | canceled
deriving DecidableEq

/-- The error values of the order domain and order application packages. -/
inductive OrderErr
  | ErrInvalidOrderAmount
  | ErrInvalidOrderItems
  | ErrInvalidOrderStatus
  | ErrOrderNotFound
  | ErrOrderStatusTransition
  | ErrInvalidCustomerID
  | storageMsg (s : String)
deriving DecidableEq

/-- `OrderItem` entity. -/
structure OrderItem where
  id : String
  productID : String
  name : String
  price : Rat
  quantity : Int
deriving DecidableEq

/-- `NewOrderItem`: constructs an item with no validation whatsoever.
The generated UUID is passed in as `id`. -/
def NewOrderItem (id productID name : String) (price : Rat) (quantity : Int) :
    OrderItem :=
  { id, productID, name, price, quantity }

/-- `OrderItem.Subtotal`: price × quantity. -/
def OrderItem.Subtotal (i : OrderItem) : Rat :=
  i.price * (i.quantity : Rat)

/-- `Order` entity. -/
structure Order where
  id : String
  customerID : String
  items : List OrderItem
  totalAmount : Rat
  status : OrderStatus
  createdAt : Nat
  updatedAt : Nat
deriving DecidableEq

/-- `NewOrder`: rejects an empty item list, computes the total as the fold
of the item subtotals, rejects a non-positive total, otherwise builds a
pending order stamped with `now`. -/
def NewOrder (id customerID : String) (items : List OrderItem) (now : Nat) :
    Except OrderErr Order :=
  if items.length = 0 then
    .error .ErrInvalidOrderItems
  else
    let totalAmount := items.foldl (fun acc item => acc + item.Subtotal) 0
    if totalAmount ≤ 0 then
      .error .ErrInvalidOrderAmount
    else
      .ok { id, customerID, items, totalAmount, status := .pending,
            createdAt := now, updatedAt := now }

/-- `isValidStatusTransition`: the guard switch of the order domain. -/
def isValidStatusTransition (src dst : OrderStatus) : Bool :=
  match src with
  | .pending => dst == .paid || dst == .canceled
  | .paid => dst == .shipped || dst == .canceled
  | .shipped => dst == .delivered || dst == .canceled
  | .delivered => false
  | .canceled => false

/-- `Order.UpdateStatus`: in Go this mutates the receiver and returns an
error; here it returns the (possibly updated) order together with the
optional error, so the first component is the state of the entity after the
call. -/
def Order.UpdateStatus (o : Order) (status : OrderStatus) (now : Nat) :
    Order × Option OrderErr :=
  if isValidStatusTransition o.status status then
    ({ o with status := status, updatedAt := now }, none)
  else
    (o, some .ErrOrderStatusTransition)

/-! ## Order application (use cases) -/

/-- `OrderItemRequest` of the order application package. -/
structure OrderItemRequest where
  productID : String
  name : String
  price : Rat
  quantity : Int
deriving DecidableEq

/-- The repository environment for a single order use-case call: the result
`FindByID` would return, and the errors `Save` / `Update` would return. -/
structure OrderRepoEnv where
  findByID : Except OrderErr Order
  saveErr : Option OrderErr
  updateErr : Option OrderErr

/-- Result of an order use-case call: the returned order and error, plus the
entities passed to `repo.Save` and `repo.Update` (persistence writes). -/
structure OrderUCResult where
  order : Option Order
  err : Option OrderErr
  saved : List Order
  updated : List Order
deriving DecidableEq

/-- `OrderUseCase.CreateOrder`: validates the customer id and non-emptiness
of the request list, converts requests to items via `NewOrderItem` (item
UUIDs supplied by `itemId`), builds the order via `NewOrder` (order UUID
`orderId`), then saves. -/
def CreateOrder (customerID : String) (itemRequests : List OrderItemRequest)
    (orderId : String) (itemId : Nat → String) (saveErr : Option OrderErr)
    (now : Nat) : OrderUCResult :=
  if customerID = "" then
    ⟨none, some .ErrInvalidCustomerID, [], []⟩
  else if itemRequests.length = 0 then
    ⟨none, some .ErrInvalidOrderItems, [], []⟩
  else
    let items := itemRequests.enum.map fun p =>
      NewOrderItem (itemId p.1) p.2.productID p.2.name p.2.price p.2.quantity
    match NewOrder orderId customerID items now with
    | .error e => ⟨none, some e, [], []⟩
    | .ok order =>
      match saveErr with
      | some e => ⟨none, some e, [order], []⟩
      | none => ⟨some order, none, [order], []⟩

/-- `OrderUseCase.UpdateOrderStatus`: loads the order, applies the guarded
entity transition, and persists on success. -/
def UpdateOrderStatus (env : OrderRepoEnv) (status : OrderStatus) (now : Nat) :
    OrderUCResult :=
  match env.findByID with
  | .error e => ⟨none, some e, [], []⟩
  | .ok order =>
    match order.UpdateStatus status now with
    | (_, some e) => ⟨none, some e, [], []⟩
    | (order', none) =>
      match env.updateErr with
      | some e => ⟨none, some e, [], [order']⟩
      | none => ⟨some order', none, [], [order']⟩

/-- `OrderUseCase.CancelOrder`: delegates to `UpdateOrderStatus` with target
status `canceled`. -/
def CancelOrder (env : OrderRepoEnv) (now : Nat) : OrderUCResult :=
  UpdateOrderStatus env .canceled now

/-! ## Payment domain (internal/payment/domain) -/

/-- `PaymentStatus` of the payment domain package. -/
inductive PaymentStatus
  | pending
  | approved
  | rejected
  | refunded
deriving DecidableEq

/-- The distinct `fmt.Errorf("…: %w", err)` wrapping contexts occurring in
the payment packages; each corresponds to one format string of the code. -/
inductive WrapCtx
  | checkExistingPayment
  | saveFailed
  | updateAfterRejection
  | updateAfterApproval
  | paymentProcessingFailed
  | refundProcessingFailed
  | updateAfterRefund
deriving DecidableEq

/-- Go `error` values reachable in the payment packages: the sentinel
errors, the inline `only approved payments can be refunded` error of
`Payment.Refund`, opaque gateway / storage errors carrying their message,
and wrapped errors. -/
inductive GoErr
  | ErrInvalidPaymentAmount
  | ErrInvalidOrderID
  | ErrInvalidPaymentMethod
  | ErrPaymentNotFound
  | ErrPaymentAlreadyExists
  | ErrInvalidPaymentID
  | refundNotAllowed
  | gatewayMsg (s : String)
  | storageMsg (s : String)
  | wrap (ctx : WrapCtx) (inner : GoErr)
deriving DecidableEq

/-- The format-string prefix of each wrap context. -/
def WrapCtx.text (c : WrapCtx) : String :=
  match c with
  | .checkExistingPayment => "failed to check existing payment"
  | .saveFailed => "failed to save payment"
  | .updateAfterRejection => "failed to update payment status after rejection"
  | .updateAfterApproval => "failed to update payment status after approval"
  | .paymentProcessingFailed => "payment processing failed"
  | .refundProcessingFailed => "refund processing failed"
  | .updateAfterRefund => "failed to update payment status after refund"

/-- Go `err.Error()`. -/
def GoErr.errorString : GoErr → String
  | .ErrInvalidPaymentAmount => "invalid payment amount"
  | .ErrInvalidOrderID => "invalid order ID"
  | .ErrInvalidPaymentMethod => "invalid payment method"
  | .ErrPaymentNotFound => "payment not found"
  | .ErrPaymentAlreadyExists => "payment already exists for this order"
  | .ErrInvalidPaymentID => "invalid payment ID"
  | .refundNotAllowed => "only approved payments can be refunded"
  | .gatewayMsg s => s
  | .storageMsg s => s
  | .wrap c inner => c.text ++ ": " ++ inner.errorString

/-- Go `errors.Is`: equality, or equality after unwrapping. -/
def GoErr.is : GoErr → GoErr → Bool
  | .wrap c inner, target => (GoErr.wrap c inner == target) || inner.is target
  | e, target => e == target

/-- A Go `map[string]string` value (insertion-ordered association list). -/
abbrev PayData := List (String × String)

/-- Go map assignment `m[k] = v` on a non-nil map. -/
def assocSet (m : PayData) (k v : String) : PayData :=
  if m.any (fun p => p.1 = k) then
    m.map (fun p => if p.1 = k then (k, v) else p)
  else
    m ++ [(k, v)]

/-- `Payment` entity.  `paymentData` is `none` when the Go map is `nil`
(`NewPayment` stores the caller's map without initializing it). -/
structure Payment where
  id : String
  orderID : String
  amount : Rat
  method : String
  status : PaymentStatus
  transactionID : String
  paymentData : Option PayData
  createdAt : Nat
  updatedAt : Nat
deriving DecidableEq

/-- `NewPayment`: eager validation of order id, amount and method, in that
order; on success builds a pending payment holding the caller's map
unchanged (possibly `nil`). -/
def NewPayment (id orderID : String) (amount : Rat) (method : String)
    (paymentData : Option PayData) (now : Nat) : Except GoErr Payment :=
  if orderID = "" then
    .error .ErrInvalidOrderID
  else if amount ≤ 0 then
    .error .ErrInvalidPaymentAmount
  else if method = "" then
    .error .ErrInvalidPaymentMethod
  else
    .ok { id, orderID, amount, method, status := .pending,
          transactionID := "", paymentData, createdAt := now, updatedAt := now }

/-- `Payment.Approve`: unconditionally sets status `approved`, stores the
transaction reference and refreshes the timestamp (no status guard in the
code). -/
def Payment.Approve (p : Payment) (transactionID : String) (now : Nat) :
    Payment :=
  { p with status := .approved, transactionID := transactionID,
           updatedAt := now }

/-- `Payment.Reject`: unconditionally sets status `rejected` and writes the
reason into the map; assignment into a `nil` map is a Go runtime panic,
modelled as `none`. -/
def Payment.Reject (p : Payment) (reason : String) (now : Nat) :
    Option Payment :=
  match p.paymentData with
  | none => none
  | some m =>
    some { p with status := .rejected,
                  paymentData := some (assocSet m ("reject_reason") reason),
                  updatedAt := now }

/-- Outcome of an entity operation that can fail with an error or panic. -/
inductive EntityStep (α : Type)
  | ok (a : α)
  | err (e : GoErr)
  | nilMapPanic
deriving DecidableEq

/-- `Payment.Refund`: guarded — errors unless the status is `approved`;
then sets `refunded` and writes the reason into the map (panicking if the
map is `nil`). -/
def Payment.Refund (p : Payment) (reason : String) (now : Nat) :
    EntityStep Payment :=
  if p.status ≠ .approved then
    .err .refundNotAllowed
  else
    match p.paymentData with
    | none => .nilMapPanic
    | some m =>
      .ok { p with status := .refunded,
                   paymentData := some (assocSet m ("refund_reason") reason),
                   updatedAt := now }

/-! ## Payment application (use cases) -/

/-- Result of a payment use-case call: the returned entity and error, the
performed effects (`gatewayCalled`, entities passed to `repo.Save` and
`repo.Update`), and whether the call panicked (in which case nothing is
returned). -/
structure PayUCResult where
  payment : Option Payment
  err : Option GoErr
  gatewayCalled : Bool
  saved : List Payment
  updated : List Payment
  panicked : Bool
deriving DecidableEq

/-- Environment of one `CreatePayment` call: what `repo.FindByOrderID`
returns (Go returns both an entity pointer and an error), what `repo.Save`
would return, the generated UUID and the clock. -/
structure CreateEnv where
  findByOrder : Option Payment × Option GoErr
  saveErr : Option GoErr
  newID : String
  now : Nat

/-- `PaymentUseCase.CreatePayment`: checks for an existing payment for the
order, builds the entity via `NewPayment`, then saves. -/
def CreatePayment (orderID : String) (amount : Rat) (method : String)
    (paymentData : Option PayData) (env : CreateEnv) : PayUCResult :=
  let existing := env.findByOrder.1
  let ferr := env.findByOrder.2
  let fatalFindErr : Option GoErr :=
    match ferr with
    | some e => if e.is .ErrPaymentNotFound then none else some e
    | none => none
  match fatalFindErr with
  | some e => ⟨none, some (.wrap .checkExistingPayment e), false, [], [], false⟩
  | none =>
    match existing with
    | some _ => ⟨none, some .ErrPaymentAlreadyExists, false, [], [], false⟩
    | none =>
      match NewPayment env.newID orderID amount method paymentData env.now with
      | .error e => ⟨none, some e, false, [], [], false⟩
      | .ok payment =>
        match env.saveErr with
        | some e =>
          ⟨none, some (.wrap .saveFailed e), false, [payment], [], false⟩
        | none => ⟨some payment, none, false, [payment], [], false⟩

/-- Environment of one `ProcessPayment` call: the `repo.FindByID` result,
the gateway outcome (transaction reference or error), the `repo.Update`
outcome and the clock. -/
structure ProcessEnv where
  find : Except GoErr Payment
  gateway : Except GoErr String
  updateErr : Option GoErr
  now : Nat

/-- `PaymentUseCase.ProcessPayment`: empty-id guard, load, no-op unless
pending, gateway call, then `Reject`+update (returning the rejected entity
together with a wrapped gateway error) or `Approve`+update. -/
def ProcessPayment (paymentID : String) (env : ProcessEnv) : PayUCResult :=
  if paymentID = "" then
    ⟨none, some .ErrInvalidPaymentID, false, [], [], false⟩
  else
    match env.find with
    | .error e => ⟨none, some e, false, [], [], false⟩
    | .ok payment =>
      if payment.status ≠ .pending then
        ⟨some payment, none, false, [], [], false⟩
      else
        match env.gateway with
        | .error gerr =>
          match payment.Reject gerr.errorString env.now with
          | none => ⟨none, none, true, [], [], true⟩
          | some rejected =>
            match env.updateErr with
            | some uerr =>
              ⟨none, some (.wrap .updateAfterRejection uerr), true, [],
               [rejected], false⟩
            | none =>
              ⟨some rejected, some (.wrap .paymentProcessingFailed gerr),
               true, [], [rejected], false⟩
        | .ok transactionID =>
          let approved := payment.Approve transactionID env.now
          match env.updateErr with
          | some uerr =>
            ⟨none, some (.wrap .updateAfterApproval uerr), true, [],
             [approved], false⟩
          | none => ⟨some approved, none, true, [], [approved], false⟩

/-- Environment of one `RefundPayment` call: the `repo.FindByID` result,
the gateway refund outcome, the `repo.Update` outcome and the clock. -/
structure RefundEnv where
  find : Except GoErr Payment
  gatewayErr : Option GoErr
  updateErr : Option GoErr
  now : Nat

/-- `PaymentUseCase.RefundPayment`: empty-id guard, load, gateway refund
call (before any status check), entity `Refund`, then update. -/
def RefundPayment (id reason : String) (env : RefundEnv) : PayUCResult :=
  if id = "" then
    ⟨none, some .ErrInvalidPaymentID, false, [], [], false⟩
  else
    match env.find with
    | .error e => ⟨none, some e, false, [], [], false⟩
    | .ok payment =>
      match env.gatewayErr with
      | some gerr =>
        ⟨none, some (.wrap .refundProcessingFailed gerr), true, [], [], false⟩
      | none =>
        match payment.Refund reason env.now with
        | .err e => ⟨none, some e, true, [], [], false⟩
        | .nilMapPanic => ⟨none, none, true, [], [], true⟩
        | .ok refunded =>
          match env.updateErr with
          | some uerr =>
            ⟨none, some (.wrap .updateAfterRefund uerr), true, [],
             [refunded], false⟩
          | none => ⟨some refunded, none, true, [], [refunded], false⟩

/-! ## Helper definitions and lemmas -/

instance instDecEqExcept {ε α : Type} [DecidableEq ε] [DecidableEq α] :
    DecidableEq (Except ε α) := fun x y =>
  match x, y with
  | .ok a, .ok b =>
    if h : a = b then .isTrue (by rw [h])
    else .isFalse (by intro hc; cases hc; exact h rfl)
  | .error a, .error b =>
    if h : a = b then .isTrue (by rw [h])
    else .isFalse (by intro hc; cases hc; exact h rfl)
  | .ok _, .error _ => .isFalse (by intro hc; cases hc)
  | .error _, .ok _ => .isFalse (by intro hc; cases hc)

/-- The sum of the item subtotals. -/
def sumSubtotals (items : List OrderItem) : Rat :=
  (items.map OrderItem.Subtotal).sum

theorem foldl_subtotal (items : List OrderItem) (a : Rat) :
    items.foldl (fun acc item => acc + item.Subtotal) a
      = a + sumSubtotals items := by
  induction items generalizing a with
  | nil => simp [sumSubtotals]
  | cons x xs ih => simp [sumSubtotals, ih]; ring

/-- The transition table of §4.1 of the specification, literally. -/
def orderTransitionTable : List (OrderStatus × OrderStatus) :=
  [(.pending, .paid), (.pending, .canceled), (.paid, .shipped),
   (.paid, .canceled), (.shipped, .delivered), (.shipped, .canceled)]

theorem valid_iff_mem_table (src dst : OrderStatus) :
    isValidStatusTransition src dst = true
      ↔ (src, dst) ∈ orderTransitionTable := by
  cases src <;> cases dst <;> decide

/-- A sample pending order used to instantiate universally quantified
theorems. -/
def sampleOrder : Order :=
  { id := ("ord-1"), customerID := ("cust-1"),
    items := [NewOrderItem ("item-1") ("prod-1") ("widget") 10 2],
    totalAmount := 20, status := .pending, createdAt := 0, updatedAt := 0 }

/-! ## Claim theorems: order side -/

/-- C1: `UpdateStatus` succeeds exactly on the pairs of the transition
table {pending→paid, pending→canceled, paid→shipped, paid→canceled,
shipped→delivered, shipped→canceled}; a disallowed pair yields the
`ErrOrderStatusTransition` error and leaves the entity (status and
updated-timestamp included) unchanged, and an allowed pair sets the status
and refreshes the updated-timestamp. -/
theorem updateStatus_iff_transition_table (o : Order) (dst : OrderStatus)
    (now : Nat) :
    ((o.status, dst) ∈ orderTransitionTable →
      o.UpdateStatus dst now = ({ o with status := dst, updatedAt := now }, none))
    ∧ ((o.status, dst) ∉ orderTransitionTable →
      o.UpdateStatus dst now = (o, some .ErrOrderStatusTransition)) := by
  constructor
  · intro h
    have hv : isValidStatusTransition o.status dst = true :=
      (valid_iff_mem_table o.status dst).mpr h
    simp [Order.UpdateStatus, hv]
  · intro h
    have hv : isValidStatusTransition o.status dst = false := by
      rcases Bool.eq_false_or_eq_true (isValidStatusTransition o.status dst)
        with h' | h'
      · exact absurd ((valid_iff_mem_table o.status dst).mp h') h
      · exact h'
    simp [Order.UpdateStatus, hv]

theorem updateStatus_iff_transition_table_witness :
    ((ECom.sampleOrder.status, OrderStatus.paid) ∈ orderTransitionTable
      ∧ sampleOrder.UpdateStatus .paid 5
          = ({ sampleOrder with status := .paid, updatedAt := 5 }, none))
    ∧ ((ECom.sampleOrder.status, OrderStatus.delivered) ∉ orderTransitionTable
      ∧ sampleOrder.UpdateStatus .delivered 5
          = (sampleOrder, some .ErrOrderStatusTransition)) :=
  ⟨⟨by decide,
    (updateStatus_iff_transition_table sampleOrder .paid 5).1 (by decide)⟩,
   ⟨by decide,
    (updateStatus_iff_transition_table sampleOrder .delivered 5).2 (by decide)⟩⟩

/-- A sample order repository environment whose lookup finds
`sampleOrder`. -/
def sampleOrderEnv : OrderRepoEnv :=
  { findByID := .ok sampleOrder, saveErr := none, updateErr := none }

/-- C8: `CancelOrder` is definitionally the guarded status-update with
target `canceled` (same code path); an order in status pending, paid or
shipped cancels successfully (status set to canceled and the updated entity
persisted), while a delivered or canceled order fails with the same
transition error and no write. -/
theorem cancelOrder_is_guarded_update (env : OrderRepoEnv) (now : Nat)
    (o : Order) (hfind : env.findByID = .ok o) (hupd : env.updateErr = none) :
    CancelOrder env now = UpdateOrderStatus env .canceled now
    ∧ ((o.status = .pending ∨ o.status = .paid ∨ o.status = .shipped) →
        CancelOrder env now =
          ⟨some { o with status := .canceled, updatedAt := now }, none, [],
           [{ o with status := .canceled, updatedAt := now }]⟩)
    ∧ ((o.status = .delivered ∨ o.status = .canceled) →
        CancelOrder env now = ⟨none, some .ErrOrderStatusTransition, [], []⟩) := by
  refine ⟨rfl, ?_, ?_⟩
  · intro h
    rcases h with h | h | h <;>
      simp [CancelOrder, UpdateOrderStatus, hfind, hupd, Order.UpdateStatus,
        isValidStatusTransition, h]
  · intro h
    rcases h with h | h <;>
      simp [CancelOrder, UpdateOrderStatus, hfind, hupd, Order.UpdateStatus,
        isValidStatusTransition, h]

theorem cancelOrder_is_guarded_update_witness :
    CancelOrder sampleOrderEnv 9 =
      ⟨some { sampleOrder with status := .canceled, updatedAt := 9 }, none, [],
       [{ sampleOrder with status := .canceled, updatedAt := 9 }]⟩ :=
  (cancelOrder_is_guarded_update sampleOrderEnv 9 sampleOrder rfl rfl).2.1
    (Or.inl rfl)

/-- C6: the order factory stores as total exactly the sum of the item
subtotals (unit price × quantity), and that total is strictly positive on
every successful creation; an empty item list fails with
`ErrInvalidOrderItems`, and the create use case with an empty request list
returns that error having performed no `Save` (no persisted entity). -/
theorem newOrder_total_and_empty (id cid : String) (items : List OrderItem)
    (now : Nat) :
    (∀ o, NewOrder id cid items now = .ok o →
      o.totalAmount = sumSubtotals items ∧ 0 < o.totalAmount ∧ o.items = items)
    ∧ (items = [] → NewOrder id cid items now = .error .ErrInvalidOrderItems)
    ∧ (∀ (reqs : List OrderItemRequest) oid itemId saveErr, reqs = [] →
        cid ≠ "" →
        CreateOrder cid reqs oid itemId saveErr now =
          ⟨none, some .ErrInvalidOrderItems, [], []⟩) := by
  refine ⟨?_, ?_, ?_⟩
  · intro o ho
    by_cases hlen : items.length = 0
    · simp [NewOrder, hlen] at ho
    · by_cases hle : sumSubtotals items ≤ 0
      · simp [NewOrder, hlen, foldl_subtotal, hle] at ho
      · simp [NewOrder, hlen, foldl_subtotal, hle] at ho
        rw [← ho]
        exact ⟨rfl, lt_of_not_le hle, rfl⟩
  · intro h
    subst h
    simp [NewOrder]
  · intro reqs oid itemId saveErr hreqs hcid
    subst hreqs
    simp [CreateOrder, hcid]

/-- The scenario items of §8 of the specification. -/
def sampleItems : List OrderItem :=
  [NewOrderItem ("item-1") ("prod-1") ("widget") 1000000 1,
   NewOrderItem ("item-2") ("prod-2") ("gadget") 50000 2]

/-- The order the factory builds from `sampleItems`. -/
def sampleCreatedOrder : Order :=
  { id := ("ord-2"), customerID := ("cust-2"), items := sampleItems,
    totalAmount := 1100000, status := .pending, createdAt := 0,
    updatedAt := 0 }

theorem newOrder_sample_eval :
    NewOrder ("ord-2") ("cust-2") sampleItems 0 = .ok sampleCreatedOrder := by
  norm_num [NewOrder, sampleItems, sampleCreatedOrder, NewOrderItem,
    OrderItem.Subtotal, List.foldl_cons, List.foldl_nil]

theorem newOrder_total_and_empty_witness :
    NewOrder ("ord-2") ("cust-2") sampleItems 0 = .ok sampleCreatedOrder
    ∧ (sampleCreatedOrder.totalAmount = sumSubtotals sampleItems
      ∧ 0 < sampleCreatedOrder.totalAmount
      ∧ sampleCreatedOrder.items = sampleItems) :=
  ⟨newOrder_sample_eval,
   (newOrder_total_and_empty ("ord-2") ("cust-2") sampleItems 0).1
     sampleCreatedOrder newOrder_sample_eval⟩

/-- C10: `NewOrderItem` performs no validation — it stores its arguments
verbatim — and `NewOrder` succeeds on every non-empty item list whose
aggregate subtotal sum is strictly positive, regardless of individual item
prices or quantities; only a non-positive aggregate total (or an empty
list) fails. -/
theorem newOrderItem_no_validation (iid pid nm : String) (price : Rat)
    (qty : Int) (oid cid : String) (items : List OrderItem) (now : Nat) :
    NewOrderItem iid pid nm price qty =
      { id := iid, productID := pid, name := nm, price := price,
        quantity := qty }
    ∧ (NewOrderItem iid pid nm price qty).Subtotal = price * (qty : Rat)
    ∧ (items ≠ [] → 0 < sumSubtotals items →
        NewOrder oid cid items now =
          .ok { id := oid, customerID := cid, items := items,
                totalAmount := sumSubtotals items, status := .pending,
                createdAt := now, updatedAt := now })
    ∧ (items ≠ [] → sumSubtotals items ≤ 0 →
        NewOrder oid cid items now = .error .ErrInvalidOrderAmount) := by
  refine ⟨rfl, rfl, ?_, ?_⟩
  · intro hne hpos
    have hlen : ¬ items.length = 0 := by
      simpa [List.length_eq_zero] using hne
    simp [NewOrder, hlen, foldl_subtotal, not_le.mpr hpos]
  · intro hne hle
    have hlen : ¬ items.length = 0 := by
      simpa [List.length_eq_zero] using hne
    simp [NewOrder, hlen, foldl_subtotal, hle]

/-- An item list containing a negative-price and a zero-quantity item whose
aggregate total is nevertheless positive. -/
def mixedItems : List OrderItem :=
  [NewOrderItem ("item-a") ("prod-a") ("discount") (-5) 1,
   NewOrderItem ("item-b") ("prod-b") ("freebie") 3 0,
   NewOrderItem ("item-c") ("prod-c") ("thing") 10 2]

theorem mixedItems_total_pos : 0 < sumSubtotals mixedItems := by
  norm_num [sumSubtotals, mixedItems, NewOrderItem, OrderItem.Subtotal]

theorem newOrderItem_no_validation_witness :
    mixedItems ≠ [] ∧ 0 < sumSubtotals mixedItems ∧
    NewOrder ("ord-3") ("cust-3") mixedItems 3 =
      .ok { id := ("ord-3"), customerID := ("cust-3"), items := mixedItems,
            totalAmount := sumSubtotals mixedItems, status := .pending,
            createdAt := 3, updatedAt := 3 } :=
  ⟨by simp [mixedItems], mixedItems_total_pos,
   (newOrderItem_no_validation ("item-a") ("prod-a") ("discount") (-5) 1
     ("ord-3") ("cust-3") mixedItems 3).2.2.1 (by simp [mixedItems])
     mixedItems_total_pos⟩

/-! ## Claim theorems: payment side -/

/-- A sample pending payment whose auxiliary map is non-nil. -/
def samplePendingPayment : Payment :=
  { id := ("pay-1"), orderID := ("ord-1"), amount := 100,
    method := ("credit_card"), status := .pending, transactionID := "",
    paymentData := some [], createdAt := 0, updatedAt := 0 }

/-- A sample approved payment whose auxiliary map is non-nil. -/
def sampleApprovedPayment : Payment :=
  { id := ("pay-2"), orderID := ("ord-2"), amount := 1100000,
    method := ("credit_card"), status := .approved,
    transactionID := ("txn_abc"), paymentData := some [], createdAt := 0,
    updatedAt := 0 }

/-- C5: a `CreatePayment` call finding an existing payment for the order
fails with `ErrPaymentAlreadyExists` and performs no persistence write;
a call with amount ≤ 0 (no existing payment, non-empty order id) fails with
`ErrInvalidPaymentAmount`; and whenever amount ≤ 0 the call never reaches
`Save` and always returns some error. -/
theorem createPayment_duplicate_and_amount_guards (orderID : String)
    (amount : Rat) (method : String) (pd : Option PayData) (env : CreateEnv) :
    (∀ q, env.findByOrder.1 = some q →
      (∀ e, env.findByOrder.2 = some e → e.is .ErrPaymentNotFound = true) →
      CreatePayment orderID amount method pd env =
        ⟨none, some .ErrPaymentAlreadyExists, false, [], [], false⟩)
    ∧ (env.findByOrder.1 = none →
      (∀ e, env.findByOrder.2 = some e → e.is .ErrPaymentNotFound = true) →
      orderID ≠ "" → amount ≤ 0 →
      CreatePayment orderID amount method pd env =
        ⟨none, some .ErrInvalidPaymentAmount, false, [], [], false⟩)
    ∧ (amount ≤ 0 →
      (CreatePayment orderID amount method pd env).saved = []
      ∧ (CreatePayment orderID amount method pd env).err ≠ none) := by
  refine ⟨?_, ?_, ?_⟩
  · intro q hq hnf
    rcases hfe : env.findByOrder with ⟨ex, fe⟩
    rw [hfe] at hq
    simp only at hq
    subst hq
    cases fe with
    | none => simp [CreatePayment, hfe]
    | some e =>
      have he : e.is .ErrPaymentNotFound = true := by
        apply hnf
        rw [hfe]
      simp [CreatePayment, hfe, he]
  · intro hnone hnf hoid hle
    rcases hfe : env.findByOrder with ⟨ex, fe⟩
    rw [hfe] at hnone
    simp only at hnone
    subst hnone
    have hnp : ¬ (0 : Rat) < amount := not_lt.mpr hle
    cases fe with
    | none => simp [CreatePayment, hfe, NewPayment, hoid, hle]
    | some e =>
      have he : e.is .ErrPaymentNotFound = true := by
        apply hnf
        rw [hfe]
      simp [CreatePayment, hfe, he, NewPayment, hoid, hle]
  · intro hle
    rcases hfe : env.findByOrder with ⟨ex, fe⟩
    have hnew : ∀ nid, NewPayment nid orderID amount method pd env.now =
        .error (if orderID = "" then .ErrInvalidOrderID
                else .ErrInvalidPaymentAmount) := by
      intro nid
      by_cases hoid : orderID = "" <;> simp [NewPayment, hoid, hle]
    cases fe with
    | none =>
      cases ex with
      | none => simp [CreatePayment, hfe, hnew]
      | some q => simp [CreatePayment, hfe]
    | some e =>
      by_cases he : e.is .ErrPaymentNotFound = true
      · cases ex with
        | none => simp [CreatePayment, hfe, he, hnew]
        | some q => simp [CreatePayment, hfe, he]
      · simp [CreatePayment, hfe, he]

/-- The environment of a duplicate-creation attempt. -/
def dupCreateEnv : CreateEnv :=
  { findByOrder := (some sampleApprovedPayment, none), saveErr := none,
    newID := ("pay-9"), now := 4 }

/-- The environment of a fresh-creation attempt (lookup finds nothing). -/
def freshCreateEnv : CreateEnv :=
  { findByOrder := (none, some .ErrPaymentNotFound), saveErr := none,
    newID := ("pay-9"), now := 4 }

theorem createPayment_duplicate_and_amount_guards_witness :
    (CreatePayment ("ord-2") 50 ("credit_card") (some []) dupCreateEnv =
      ⟨none, some .ErrPaymentAlreadyExists, false, [], [], false⟩)
    ∧ (CreatePayment ("ord-9") (-3) ("credit_card") (some []) freshCreateEnv =
      ⟨none, some .ErrInvalidPaymentAmount, false, [], [], false⟩) :=
  ⟨(createPayment_duplicate_and_amount_guards ("ord-2") 50 ("credit_card")
      (some []) dupCreateEnv).1 sampleApprovedPayment rfl
      (by intro e he; cases he),
   (createPayment_duplicate_and_amount_guards ("ord-9") (-3) ("credit_card")
      (some []) freshCreateEnv).2.1 rfl
      (by intro e he; cases he; rfl) (by simp) (by norm_num)⟩

/-- The entity `Payment.Reject` produces from a payment whose map is
`some m`. -/
def mkRejected (p : Payment) (m : PayData) (reason : String) (now : Nat) :
    Payment :=
  { p with status := .rejected,
           paymentData := some (assocSet m ("reject_reason") reason),
           updatedAt := now }

/-- The entity `Payment.Refund` produces from an approved payment whose map
is `some m`. -/
def mkRefunded (p : Payment) (m : PayData) (reason : String) (now : Nat) :
    Payment :=
  { p with status := .refunded,
           paymentData := some (assocSet m ("refund_reason") reason),
           updatedAt := now }

/-- A settled (non-pending) payment is returned unchanged by
`ProcessPayment`, with no gateway call and no write. -/
theorem processPayment_settled_noop (p : Payment) (env : ProcessEnv)
    (pid : String) (hid : pid ≠ "") (hfind : env.find = .ok p)
    (hs : p.status ≠ .pending) :
    ProcessPayment pid env = ⟨some p, none, false, [], [], false⟩ := by
  simp [ProcessPayment, hid, hfind, hs]

/-- C3: `ProcessPayment` is idempotent — on a payment whose status is not
pending it returns the entity unchanged with no error, no gateway call and
no write; and after a first call settles a pending payment (approved or
rejected), a second call that loads the settled entity is exactly such a
no-op with no second gateway invocation. -/
theorem processPayment_idempotent (p : Payment) (env : ProcessEnv)
    (pid : String) (hid : pid ≠ "") (hfind : env.find = .ok p) :
    (p.status ≠ .pending →
      ProcessPayment pid env = ⟨some p, none, false, [], [], false⟩)
    ∧ (∀ m, p.status = .pending → p.paymentData = some m →
      env.updateErr = none →
      ∃ p', (ProcessPayment pid env).payment = some p'
        ∧ (p'.status = .approved ∨ p'.status = .rejected)
        ∧ (ProcessPayment pid env).gatewayCalled = true
        ∧ ∀ env2 : ProcessEnv, env2.find = .ok p' →
            ProcessPayment pid env2 = ⟨some p', none, false, [], [], false⟩) := by
  constructor
  · intro hs
    exact processPayment_settled_noop p env pid hid hfind hs
  · intro m hp hm hupd
    cases hgw : env.gateway with
    | ok tid =>
      refine ⟨p.Approve tid env.now, ?_, Or.inl rfl, ?_, ?_⟩
      · simp [ProcessPayment, hid, hfind, hp, hgw, hupd]
      · simp [ProcessPayment, hid, hfind, hp, hgw, hupd]
      · intro env2 hfind2
        exact processPayment_settled_noop _ env2 pid hid hfind2 (by
          simp [Payment.Approve])
    | error g =>
      refine ⟨mkRejected p m g.errorString env.now, ?_, Or.inr rfl, ?_, ?_⟩
      · simp [ProcessPayment, hid, hfind, hp, hgw, hupd, Payment.Reject, hm,
          mkRejected]
      · simp [ProcessPayment, hid, hfind, hp, hgw, hupd, Payment.Reject, hm]
      · intro env2 hfind2
        exact processPayment_settled_noop _ env2 pid hid hfind2 (by
          simp [mkRejected])

/-- The environment of a first processing call on the §8 scenario payment:
the gateway approves with reference `txn_abc`. -/
def approveProcessEnv : ProcessEnv :=
  { find := .ok samplePendingPayment, gateway := .ok ("txn_abc"),
    updateErr := none, now := 2 }

theorem processPayment_idempotent_witness :
    ∃ p', (ProcessPayment ("pay-1") approveProcessEnv).payment = some p'
      ∧ (p'.status = .approved ∨ p'.status = .rejected)
      ∧ (ProcessPayment ("pay-1") approveProcessEnv).gatewayCalled = true
      ∧ ∀ env2 : ProcessEnv, env2.find = .ok p' →
          ProcessPayment ("pay-1") env2 = ⟨some p', none, false, [], [], false⟩ :=
  (processPayment_idempotent samplePendingPayment approveProcessEnv ("pay-1")
    (by simp) rfl).2 [] rfl rfl rfl

/-- C4: processing a pending payment — on gateway success the entity
becomes approved with the transaction reference stored and is persisted
and returned without error; on gateway failure the entity becomes rejected
with the reason stored under the `reject_reason` key, is persisted, and is
returned together with the wrapped gateway error; if the persistence write
after rejection fails, the returned error wraps the update error, which is
distinct from the wrapped gateway failure. -/
theorem processPayment_pending_outcomes (p : Payment) (env : ProcessEnv)
    (pid : String) (hid : pid ≠ "") (hfind : env.find = .ok p)
    (hp : p.status = .pending) :
    (∀ tid, env.gateway = .ok tid → env.updateErr = none →
      ProcessPayment pid env =
        ⟨some (p.Approve tid env.now), none, true, [],
         [p.Approve tid env.now], false⟩
      ∧ (p.Approve tid env.now).status = .approved
      ∧ (p.Approve tid env.now).transactionID = tid)
    ∧ (∀ g m, env.gateway = .error g → p.paymentData = some m →
      env.updateErr = none →
      ProcessPayment pid env =
        ⟨some (mkRejected p m g.errorString env.now),
         some (.wrap .paymentProcessingFailed g), true, [],
         [mkRejected p m g.errorString env.now], false⟩
      ∧ (mkRejected p m g.errorString env.now).status = .rejected
      ∧ (mkRejected p m g.errorString env.now).paymentData =
          some (assocSet m ("reject_reason") g.errorString))
    ∧ (∀ g m u, env.gateway = .error g → p.paymentData = some m →
      env.updateErr = some u →
      (ProcessPayment pid env).err = some (.wrap .updateAfterRejection u)
      ∧ (GoErr.wrap .updateAfterRejection u)
          ≠ (GoErr.wrap .paymentProcessingFailed g)) := by
  refine ⟨?_, ?_, ?_⟩
  · intro tid hgw hupd
    refine ⟨?_, rfl, rfl⟩
    simp [ProcessPayment, hid, hfind, hp, hgw, hupd]
  · intro g m hgw hm hupd
    refine ⟨?_, rfl, rfl⟩
    simp [ProcessPayment, hid, hfind, hp, hgw, hupd, Payment.Reject, hm,
      mkRejected]
  · intro g m u hgw hm hupd
    refine ⟨?_, by simp⟩
    simp [ProcessPayment, hid, hfind, hp, hgw, hupd, Payment.Reject, hm]

theorem processPayment_pending_outcomes_witness :
    ProcessPayment ("pay-1") approveProcessEnv =
      ⟨some (samplePendingPayment.Approve ("txn_abc") 2), none, true, [],
       [samplePendingPayment.Approve ("txn_abc") 2], false⟩
    ∧ (samplePendingPayment.Approve ("txn_abc") 2).status = .approved
    ∧ (samplePendingPayment.Approve ("txn_abc") 2).transactionID =
        ("txn_abc") :=
  (processPayment_pending_outcomes samplePendingPayment approveProcessEnv
    ("pay-1") (by simp) rfl rfl).1 ("txn_abc") rfl rfl

/-- The environment of a refund attempt that loads the pending payment;
the gateway refund succeeds. -/
def pendingRefundEnv : RefundEnv :=
  { find := .ok samplePendingPayment, gatewayErr := none, updateErr := none,
    now := 7 }

/-- C2 counterexample: on a payment whose status is pending (not approved),
`RefundPayment` does perform the gateway call — the claim that no gateway
call happens for a non-approved payment is false (the resulting error is
nevertheless the refund-not-allowed error and nothing is persisted). -/
theorem refund_nonApproved_calls_gateway :
    samplePendingPayment.status ≠ .approved
    ∧ (RefundPayment ("pay-1") ("dup") pendingRefundEnv).gatewayCalled = true
    ∧ (RefundPayment ("pay-1") ("dup") pendingRefundEnv).err =
        some .refundNotAllowed
    ∧ (RefundPayment ("pay-1") ("dup") pendingRefundEnv).updated = [] := by
  refine ⟨by simp [samplePendingPayment], ?_, ?_, ?_⟩ <;>
    simp [RefundPayment, pendingRefundEnv, samplePendingPayment,
      Payment.Refund]

/-- C2 amended: `RefundPayment` always invokes the gateway before the
status check — on a non-approved payment the gateway is called and, when
the gateway call succeeds, the operation then fails with the
refund-not-allowed error; a gateway failure yields the wrapped gateway
error; in either case nothing is persisted.  On an approved payment with a
non-nil map, the refund succeeds only if the gateway call does: the entity
transitions to refunded with the reason stored and is persisted, while a
gateway failure aborts with no state change. -/
theorem refundPayment_behaviour (p : Payment) (env : RefundEnv)
    (id reason : String) (hid : id ≠ "") (hfind : env.find = .ok p) :
    (p.status ≠ .approved →
      (RefundPayment id reason env).gatewayCalled = true
      ∧ (RefundPayment id reason env).saved = []
      ∧ (RefundPayment id reason env).updated = []
      ∧ (env.gatewayErr = none →
          (RefundPayment id reason env).err = some .refundNotAllowed)
      ∧ (∀ g, env.gatewayErr = some g →
          (RefundPayment id reason env).err =
            some (.wrap .refundProcessingFailed g)))
    ∧ (∀ g, env.gatewayErr = some g →
        (RefundPayment id reason env).updated = []
        ∧ (RefundPayment id reason env).payment = none
        ∧ (RefundPayment id reason env).err =
            some (.wrap .refundProcessingFailed g))
    ∧ (∀ m, p.status = .approved → p.paymentData = some m →
        env.gatewayErr = none → env.updateErr = none →
        RefundPayment id reason env =
          ⟨some (mkRefunded p m reason env.now), none, true, [],
           [mkRefunded p m reason env.now], false⟩) := by
  refine ⟨?_, ?_, ?_⟩
  · intro hs
    cases hgw : env.gatewayErr with
    | none =>
      refine ⟨?_, ?_, ?_, fun _ => ?_, fun g hg => ?_⟩ <;>
        simp_all [RefundPayment, hid, hfind, hgw, Payment.Refund, hs]
    | some g =>
      refine ⟨?_, ?_, ?_, fun hc => ?_, fun g' hg' => ?_⟩ <;>
        simp_all [RefundPayment, hid, hfind, hgw]
  · intro g hg
    refine ⟨?_, ?_, ?_⟩ <;> simp [RefundPayment, hid, hfind, hg]
  · intro m hs hm hgw hupd
    simp [RefundPayment, hid, hfind, hgw, hupd, Payment.Refund, hs, hm,
      mkRefunded]

/-- The environment of a refund on the approved §8 scenario payment. -/
def approvedRefundEnv : RefundEnv :=
  { find := .ok sampleApprovedPayment, gatewayErr := none, updateErr := none,
    now := 8 }

theorem refundPayment_behaviour_witness :
    RefundPayment ("pay-2") ("customer request") approvedRefundEnv =
      ⟨some (mkRefunded sampleApprovedPayment [] ("customer request") 8),
       none, true, [],
       [mkRefunded sampleApprovedPayment [] ("customer request") 8], false⟩ :=
  (refundPayment_behaviour sampleApprovedPayment approvedRefundEnv ("pay-2")
    ("customer request") (by simp) rfl).2.2 [] rfl rfl rfl rfl

/-- A sample refunded payment with a non-nil map. -/
def sampleRefundedPayment : Payment :=
  { id := ("pay-3"), orderID := ("ord-3"), amount := 60,
    method := ("bank_transfer"), status := .refunded,
    transactionID := ("txn_z"), paymentData := some [], createdAt := 0,
    updatedAt := 0 }

/-- C7 counterexample: the entity does not guard `Approve` and `Reject` by
the pending status — on a refunded payment, `Approve` still takes effect
and sets the status to approved, and `Reject` still takes effect and sets
it to rejected. -/
theorem approve_ignores_status_guard :
    sampleRefundedPayment.status ≠ .pending
    ∧ (sampleRefundedPayment.Approve ("txn-9") 3).status = .approved
    ∧ ((sampleRefundedPayment.Reject ("late") 3).map Payment.status =
        some .rejected) := by
  refine ⟨by simp [sampleRefundedPayment], rfl, rfl⟩

/-- C7 amended: of the entity-level operations only `Refund` is guarded —
it errors unless the current status is approved, and from approved it
transitions to refunded with the reason stored; `Approve` and `Reject` set
the status (approved resp. rejected) unconditionally from any status, the
pending-only discipline being enforced by the use-case layer instead. -/
theorem entity_transition_enforcement (p : Payment) (tid reason : String)
    (now : Nat) :
    (p.Approve tid now).status = .approved
    ∧ (p.Approve tid now).transactionID = tid
    ∧ (∀ m, p.paymentData = some m →
        p.Reject reason now = some (mkRejected p m reason now))
    ∧ (p.status ≠ .approved → p.Refund reason now = .err .refundNotAllowed)
    ∧ (∀ m, p.status = .approved → p.paymentData = some m →
        p.Refund reason now = .ok (mkRefunded p m reason now)) := by
  refine ⟨rfl, rfl, ?_, ?_, ?_⟩
  · intro m hm
    simp [Payment.Reject, hm, mkRejected]
  · intro hs
    simp [Payment.Refund, hs]
  · intro m hs hm
    simp [Payment.Refund, hs, hm, mkRefunded]

theorem entity_transition_enforcement_witness :
    (samplePendingPayment.Refund ("no") 2 = .err .refundNotAllowed)
    ∧ (sampleApprovedPayment.Refund ("yes") 2 =
        .ok (mkRefunded sampleApprovedPayment [] ("yes") 2)) :=
  ⟨(entity_transition_enforcement samplePendingPayment ("t") ("no") 2).2.2.2.1
    (by simp [samplePendingPayment]),
   (entity_transition_enforcement sampleApprovedPayment ("t") ("yes") 2).2.2.2.2
    [] rfl rfl⟩

/-- The payment `NewPayment` builds when the caller passes a `nil`
auxiliary-data map. -/
def nilDataPayment : Payment :=
  { id := ("pay-4"), orderID := ("ord-4"), amount := 50,
    method := ("credit_card"), status := .pending, transactionID := "",
    paymentData := none, createdAt := 0, updatedAt := 0 }

/-- The environment of a processing call on `nilDataPayment` whose gateway
declines the payment. -/
def failingGatewayEnv : ProcessEnv :=
  { find := .ok nilDataPayment, gateway := .error (.gatewayMsg ("card declined")),
    updateErr := none, now := 1 }

/-- C9: `NewPayment` accepts a `nil` auxiliary-data map and stores it
untouched; rejecting such a payment assigns into the `nil` map, a Go
runtime panic — so processing it with a failing gateway aborts by panic
instead of returning an error value, contradicting the no-panic rule. -/
theorem nil_map_rejection_panics :
    NewPayment ("pay-4") ("ord-4") 50 ("credit_card") none 0 =
      .ok nilDataPayment
    ∧ nilDataPayment.Reject ("card declined") 1 = none
    ∧ (ProcessPayment ("pay-4") failingGatewayEnv).panicked = true
    ∧ (ProcessPayment ("pay-4") failingGatewayEnv).err = none := by
  refine ⟨?_, rfl, ?_, ?_⟩
  · norm_num [NewPayment, nilDataPayment]
    rfl
  · simp [ProcessPayment, failingGatewayEnv, nilDataPayment, Payment.Reject]
  · simp [ProcessPayment, failingGatewayEnv, nilDataPayment, Payment.Reject]

end ECom
